import Mathlib

/-!
Shallow embedding of `src/short_plateau.py` — a single routine
`plot_bolometric_curve(data_dir, file_index=None, file_name=None)` that
discovers light-curve data files in a directory, selects a subset,
parses each into a five-column record, converts the log luminosity to
linear scale, plots it and prints peak/range statistics.

The routine's only effects are reads of the directory state and a
sequence of observable outputs (printed messages, a displayed preview,
a shown figure, printed statistics).  We model the directory state as a
value of type `FS` and the routine as a pure function producing the
ordered list of those observable events.  Numeric fields are modelled
as exact rationals (the float values the program reads); the single
transcendental step `10**x` is modelled as a real-valued function of
the parsed rational.
-/

namespace ShortPlateau

/-- A whitespace-delimited token of a data-file line: a numeric field
(already lexed to its exact value) or a non-numeric piece of text.
Lines are modelled post-splitting, so "arbitrary run-length whitespace
treated as a single separator" is already accounted for; a blank line
is the empty token list. -/
inductive Tok where
  | num (q : ℚ)
  | raw (s : String)
deriving DecidableEq

/-- A directory entry of `data_dir`, with `path` relative to `data_dir`
(a direct child has no `/` in its path; a nested path such as
`sub/a.txt` reaches an entry inside a subdirectory).  `content` is
`some lines` for a readable regular text file and `none` for an entry
that exists but cannot be read as one (e.g. a subdirectory). -/
structure Entry where
  path : String
  content : Option (List (List Tok))
deriving DecidableEq

/-- The observable state of `data_dir`: its entries, in OS listing
order (the order `glob` returns them, before the program sorts). -/
structure FS where
  entries : List Entry
deriving DecidableEq

/-- One parsed data row.  Column names are assigned positionally by
`names=["time", "L_ubvri", "L_bol", "XEUV<325", "IR>890"]`; the last
two contain characters Lean identifiers cannot carry. -/
structure Row where
  time : ℚ
  L_ubvri : ℚ
  L_bol : ℚ
  xeuv325 : ℚ
  ir890 : ℚ
deriving DecidableEq

/-- Lexicographic comparison of character lists by code point — the
order Python uses for `str` comparison and `list.sort()` on paths. -/
def charListLe : List Char → List Char → Bool
  | [], _ => true
  | _ :: _, [] => false
  | x :: xs, y :: ys => if x < y then true else if y < x then false else charListLe xs ys

/-- `a <= b` on strings, lexicographically by code point. -/
def strLe (a b : String) : Bool := charListLe a.data b.data

/-- Insert `x` into a `le`-sorted list, after every element already
placed that compares `le x`: a stable insertion. -/
def insertLe (le : α → α → Bool) (x : α) : List α → List α
  | [] => [x]
  | y :: ys => if le x y then x :: y :: ys else y :: insertLe le x ys

/-- Stable insertion sort; models Python's `list.sort()` and pandas
`DataFrame.sort_values` (deterministic model of the reordering). -/
def sortLe (le : α → α → Bool) : List α → List α
  | [] => []
  | x :: xs => insertLe le x (sortLe le xs)

/-- `os.path.join(dir, name)` with a POSIX separator. -/
def joinPath (dir name : String) : String := dir ++ "/" ++ name

/-- `os.path.basename`: the part of the path after the last `/`. -/
def basename (p : String) : String :=
  String.mk ((p.data.reverse.takeWhile (fun c => c != '/')).reverse)

/-- Line 29: the four extension patterns. -/
def file_patterns : List String := ["*.txt", "*.dat", "*.csv", "*.lbol"]

/-- `fnmatch` for patterns of the shape `*.ext`, as `glob` applies it:
the name must end with the pattern's suffix, and `*` does not match a
name with a leading dot. -/
def matchesPattern (pat name : String) : Bool :=
  (match name.data with
   | [] => false
   | c :: _ => c != '.') &&
  List.isSuffixOf (pat.data.drop 1) name.data

/-- Line 33, `glob.glob(os.path.join(data_dir, pattern))`: the direct
children of `data_dir` (no `/` in the relative path) whose name
matches the pattern — directories included, `glob` does not test the
entry kind — as joined paths, in listing order. -/
def glob (fs : FS) (data_dir pat : String) : List String :=
  (fs.entries.filter
      (fun e => !(e.path.data.contains '/') && matchesPattern pat e.path)).map
    (fun e => joinPath data_dir e.path)

/-- Lines 29–37: glob each of the four patterns, concatenate the
results in pattern order, then `file_paths.sort()` —
the lexicographically sorted combined list. -/
def sortedFilePaths (fs : FS) (data_dir : String) : List String :=
  sortLe strLe ((file_patterns.map (glob fs data_dir)).flatten)

/-- Line 55, `os.path.exists(specific_path)` where `specific_path =
os.path.join(data_dir, file_name)`: some entry of `data_dir` (of any
kind — file of any extension, directory, nested path) joins to `p`. -/
def pathExists (fs : FS) (data_dir p : String) : Bool :=
  fs.entries.any (fun e => joinPath data_dir e.path == p)

/-- Opening the file at joined path `p` for reading.  A missing path or
an entry that is not a readable regular file raises, which the caller's
`except` clause observes as the error text. -/
def readFile (fs : FS) (data_dir p : String) : Except String (List (List Tok)) :=
  match fs.entries.find? (fun e => joinPath data_dir e.path == p) with
  | none => Except.error "No such file or directory"
  | some e =>
    match e.content with
    | none => Except.error "Is a directory"
    | some ls => Except.ok ls

/-- One data row: exactly five numeric tokens, assigned positionally. -/
def parseRow (toks : List Tok) : Except String Row :=
  match toks with
  | [Tok.num t, Tok.num l, Tok.num b, Tok.num x, Tok.num i] =>
      Except.ok { time := t, L_ubvri := l, L_bol := b, xeuv325 := x, ir890 := i }
  | _ => Except.error "could not parse row"

/-- Modelled from the spec: lines 78–79 delegate parsing to
`pd.read_csv(file_path, delim_whitespace=True, skiprows=1, names=[...])`,
whose code is not part of this repository.  Per the spec's file-content
contract (§6: line 1 arbitrary and discarded; every further line five
whitespace-separated numeric tokens in fixed order) and its error
taxonomy (§4.5a: malformed numeric fields and short/long rows raise a
parsing exception), the first line is dropped, blank lines are skipped,
and every remaining line must be exactly five numeric tokens. -/
def parseLines (ls : List (List Tok)) : Except String (List Row) :=
  ((ls.drop 1).filter (fun t => !t.isEmpty)).mapM parseRow

/-- Line 82, `df = df.sort_values('time')`: rows reordered by
ascending `time`. -/
def sortRows (rows : List Row) : List Row :=
  sortLe (fun a b => a.time ≤ b.time) rows

/-- Line 98, `Series.idxmax` on the time-sorted column, paired with the
maximum value: the position of the maximum, first position on ties
(a later element displaces the current best only when strictly
greater). `none` on an empty column — pandas raises there. -/
def idxmaxPair : List ℚ → Option (Nat × ℚ)
  | [] => none
  | x :: xs =>
    match idxmaxPair xs with
    | none => some (0, x)
    | some jv => if x < jv.2 then some (jv.1 + 1, jv.2) else some (0, x)

/-- `Series.max` (lines 112–113). -/
def seriesMax : List ℚ → Option ℚ
  | [] => none
  | x :: xs => some (xs.foldl max x)

/-- `Series.min` (line 113). -/
def seriesMin : List ℚ → Option ℚ
  | [] => none
  | x :: xs => some (xs.foldl min x)

/-- Line 92, `10**x` applied to a parsed log-luminosity value: the
exact real power the float computation approximates. -/
noncomputable def pow10 (x : ℚ) : ℝ := (10 : ℝ) ^ (x : ℝ)

/-- Line 92, `linear_lbol = 10**df['L_ubvri']`: the linear-scale
luminosity column derived from the log column. -/
noncomputable def linear_lbol (lubs : List ℚ) : List ℝ := lubs.map pow10

/-- The observable outputs of one call, in order: printed messages,
the tabular preview (`display(df.head())`), the shown figure and the
printed statistics block. -/
inductive Ev where
  | foundCount (n : Nat) (data_dir : String)
  | noFiles (data_dir : String)
  | listItem (displayIdx : Nat) (base : String)
  | nameNotFound (file_name data_dir : String)
  | badIndex (file_index hi : Int)
  | processing (base : String)
  | preview (base : String) (rows : List Row)
  | plotShown (base : String) (times lubs : List ℚ)
  | stats (base : String) (peakTime peakLub tmin tmax : ℚ)
  | parseError (base : String) (msg : String)
deriving DecidableEq

/-- Lines 72–116, the body of `for file_path in files_to_plot` for one
file: read and parse (lines 78–79), sort by time (82), preview
(85–86), derive `linear_lbol` and locate the peak (92–100), show the
figure (89–108) and print the statistics (110–113); any exception is
caught and reported with the base name (115–116).  The figure drawn at
`plt.show()` plots `linear_lbol = pow10` of the recorded `lubs`
against the recorded `times`; on an empty record `idxmax` raises
before the figure is shown, so only the preview precedes the report.
`peak_lum` (line 100) is computed but never printed. -/
def processOne (fs : FS) (data_dir file_path : String) : List Ev :=
  let base := basename file_path
  Ev.processing base ::
    match readFile fs data_dir file_path with
    | Except.error e => [Ev.parseError base e]
    | Except.ok ls =>
      match parseLines ls with
      | Except.error e => [Ev.parseError base e]
      | Except.ok rows =>
        let df := sortRows rows
        Ev.preview base (df.take 5) ::
          match idxmaxPair (df.map Row.L_ubvri) with
          | none => [Ev.parseError base "attempt to get argmax of an empty sequence"]
          | some jv =>
            let times := df.map Row.time
            let lubs := df.map Row.L_ubvri
            [Ev.plotShown base times lubs,
             Ev.stats base (times.getD jv.1 0) ((seriesMax lubs).getD 0)
               ((seriesMin times).getD 0) ((seriesMax times).getD 0)]

/-- Lines 46–47: the 1-based enumeration of the discovered files. -/
def listingEvents (paths : List String) : List Ev :=
  paths.enum.map (fun ib => Ev.listItem (ib.1 + 1) (basename ib.2))

/-- Lines 15–116, `plot_bolometric_curve(data_dir, file_index,
file_name)` as a pure function from the directory state and the call
arguments to the ordered sequence of observable events: report the
count (39), return on empty (41–43), list the files (46–47), resolve
the selection (52–69: explicit name first, then index, then all), and
process each selected file in sequence (72–116). -/
def plot_bolometric_curve (fs : FS) (data_dir : String)
    (file_index : Option Int) (file_name : Option String) : List Ev :=
  let file_paths := sortedFilePaths fs data_dir
  Ev.foundCount file_paths.length data_dir ::
    if file_paths.isEmpty then
      [Ev.noFiles data_dir]
    else
      listingEvents file_paths ++
        match file_name with
        | some name =>
          if pathExists fs data_dir (joinPath data_dir name) then
            processOne fs data_dir (joinPath data_dir name)
          else
            [Ev.nameNotFound name data_dir]
        | none =>
          match file_index with
          | some i =>
            if 0 ≤ i ∧ i < (file_paths.length : Int) then
              processOne fs data_dir (file_paths.getD i.toNat "")
            else
              [Ev.badIndex i ((file_paths.length : Int) - 1)]
          | none => file_paths.flatMap (processOne fs data_dir)

/-- Reading plus parsing of one file, as one fallible step. -/
def readParse (fs : FS) (data_dir p : String) : Except String (List Row) :=
  match readFile fs data_dir p with
  | Except.error e => Except.error e
  | Except.ok ls => parseLines ls

/-- The base names announced by `Processing file: ...` lines, in order. -/
def processedBases (tr : List Ev) : List String :=
  tr.filterMap (fun e => match e with | Ev.processing b => some b | _ => none)

/-- The printed statistics blocks `(base, peak time, peak L_ubvri,
time min, time max)`, in order. -/
def reportedStats (tr : List Ev) : List (String × ℚ × ℚ × ℚ × ℚ) :=
  tr.filterMap (fun e => match e with
    | Ev.stats b pt pl t0 t1 => some (b, pt, pl, t0, t1)
    | _ => none)

/-- Whether the trace holds the `Invalid file index: ...` message. -/
def hasBadIndexMsg (tr : List Ev) : Bool :=
  tr.any (fun e => match e with | Ev.badIndex _ _ => true | _ => false)

/-- Whether the trace holds the `File ... not found` message. -/
def hasNameNotFoundMsg (tr : List Ev) : Bool :=
  tr.any (fun e => match e with | Ev.nameNotFound _ _ => true | _ => false)

/-- Whether the trace shows a figure for base name `b`. -/
def hasPlotFor (b : String) (tr : List Ev) : Bool :=
  tr.any (fun e => match e with | Ev.plotShown b2 _ _ => b2 == b | _ => false)

/-- The events that announce a file being processed. -/
def isProcessingEv (e : Ev) : Bool :=
  match e with | Ev.processing _ => true | _ => false

/-- The silent-return diagnostics: empty directory, bad name, bad
index (spec §7's DiscoveryEmpty and SelectionInvalid). -/
def isDiagnostic (e : Ev) : Bool :=
  match e with
  | Ev.noFiles _ => true
  | Ev.nameNotFound _ _ => true
  | Ev.badIndex _ _ => true
  | _ => false

/-! Concrete directory states used to instantiate the theorems. -/

/-- The spec's §8 scenario: one file `a.lbol` with a header line and
two rows `0 1 1 0 0` and `1 2 2 0 0`. -/
def fsA : FS :=
  ⟨[⟨"a.lbol", some [[Tok.raw "#"],
      [Tok.num 0, Tok.num 1, Tok.num 1, Tok.num 0, Tok.num 0],
      [Tok.num 1, Tok.num 2, Tok.num 2, Tok.num 0, Tok.num 0]]⟩]⟩

/-- The record `a.lbol` of `fsA` parses to. -/
def rowsA : List Row := [⟨0, 1, 1, 0, 0⟩, ⟨1, 2, 2, 0, 0⟩]

/-- The spec's isolation scenario: three matching files where the
middle one in sorted order, `b.dat`, has a data row with only three
tokens. -/
def fs3 : FS :=
  ⟨[⟨"b.dat", some [[Tok.raw "#"], [Tok.num 5, Tok.num 1, Tok.num 1]]⟩,
    ⟨"a.txt", some [[Tok.raw "#"],
      [Tok.num 0, Tok.num 3, Tok.num 3, Tok.num 0, Tok.num 0]]⟩,
    ⟨"c.csv", some [[Tok.raw "#"],
      [Tok.num 2, Tok.num 4, Tok.num 4, Tok.num 0, Tok.num 0]]⟩]⟩

/-- A directory holding only a file with a non-matching extension:
`glob` finds nothing, yet `a.json` exists at its joined path. -/
def fsOnlyJson : FS := ⟨[⟨"a.json", some [[Tok.raw "#"]]⟩]⟩

/-- A directory with one matching file, a subdirectory `sub` (exists
but unreadable as a text file) and a readable file of a non-matching
extension. -/
def fsD : FS :=
  ⟨[⟨"a.txt", some [[Tok.raw "#"],
      [Tok.num 0, Tok.num 1, Tok.num 1, Tok.num 0, Tok.num 0]]⟩,
    ⟨"sub", none⟩,
    ⟨"notes.json", some [[Tok.raw "#"],
      [Tok.num 3, Tok.num 7, Tok.num 7, Tok.num 0, Tok.num 0]]⟩]⟩

/-! Basic lemmas about the embedded operations. -/

theorem length_insertLe (le : α → α → Bool) (x : α) (l : List α) :
    (insertLe le x l).length = l.length + 1 := by
  induction l with
  | nil => rfl
  | cons y ys ih =>
    rw [insertLe]
    split
    · rfl
    · simp [List.length_cons, ih]

theorem length_sortLe (le : α → α → Bool) (l : List α) :
    (sortLe le l).length = l.length := by
  induction l with
  | nil => rfl
  | cons x xs ih => rw [sortLe, length_insertLe, ih, List.length_cons]

theorem sortRows_ne_nil (rows : List Row) (h : rows ≠ []) :
    sortRows rows ≠ [] := by
  intro hc
  apply h
  have := length_sortLe (fun a b => a.time ≤ b.time) rows
  rw [sortRows] at hc
  rw [hc] at this
  exact List.length_eq_zero.mp this.symm

theorem idxmaxPair_eq_none_iff (l : List ℚ) :
    idxmaxPair l = none ↔ l = [] := by
  cases l with
  | nil => simp [idxmaxPair]
  | cons x xs =>
    rw [idxmaxPair]
    cases idxmaxPair xs with
    | none => simp
    | some jv =>
      by_cases hx : x < jv.2 <;> simp [hx]

/-- `idxmax` returns the position of the maximum value, and the first
such position: every element is `≤` the returned value, and every
element strictly before the returned position is strictly below it. -/
theorem idxmaxPair_spec (l : List ℚ) (j : Nat) (v : ℚ)
    (h : idxmaxPair l = some (j, v)) :
    ∃ hj : j < l.length,
      l.get ⟨j, hj⟩ = v ∧
      (∀ k (hk : k < l.length), l.get ⟨k, hk⟩ ≤ v) ∧
      (∀ k (hk : k < l.length), k < j → l.get ⟨k, hk⟩ < v) := by
  induction l generalizing j v with
  | nil => simp [idxmaxPair] at h
  | cons x xs ih =>
    rw [idxmaxPair] at h
    cases htl : idxmaxPair xs with
    | none =>
      rw [htl] at h
      have hxs : xs = [] := (idxmaxPair_eq_none_iff xs).mp htl
      subst hxs
      simp only [Option.some.injEq, Prod.mk.injEq] at h
      obtain ⟨hj0, hvx⟩ := h
      subst hj0
      subst hvx
      refine ⟨by simp, rfl, ?_, ?_⟩
      · intro k hk
        cases k with
        | zero => exact le_refl x
        | succ k => simp at hk
      · intro k hk hk0
        exact absurd hk0 (Nat.not_lt_zero k)
    | some jv =>
      obtain ⟨j', v'⟩ := jv
      rw [htl] at h
      obtain ⟨hj', hget, hall, hfirst⟩ := ih j' v' htl
      by_cases hx : x < v'
      · simp only [hx, if_true, Option.some.injEq, Prod.mk.injEq] at h
        obtain ⟨hjeq, hveq⟩ := h
        subst hjeq
        subst hveq
        refine ⟨Nat.succ_lt_succ hj', hget, ?_, ?_⟩
        · intro k hk
          cases k with
          | zero => exact le_of_lt hx
          | succ k => exact hall k (Nat.lt_of_succ_lt_succ hk)
        · intro k hk hkj
          cases k with
          | zero => exact hx
          | succ k =>
            exact hfirst k (Nat.lt_of_succ_lt_succ hk) (Nat.lt_of_succ_lt_succ hkj)
      · simp only [hx, if_false, Option.some.injEq, Prod.mk.injEq] at h
        obtain ⟨hjeq, hveq⟩ := h
        subst hjeq
        subst hveq
        refine ⟨Nat.succ_pos _, rfl, ?_, ?_⟩
        · intro k hk
          cases k with
          | zero => exact le_refl x
          | succ k =>
            exact le_trans (hall k (Nat.lt_of_succ_lt_succ hk)) (not_lt.mp hx)
        · intro k hk hk0
          exact absurd hk0 (Nat.not_lt_zero k)

theorem isEmpty_false_of_ne_nil {l : List α} (h : l ≠ []) :
    l.isEmpty = false := by
  cases hl : l with
  | nil => exact absurd hl h
  | cons a as => rfl

/-- A file whose read-and-parse step raises contributes exactly its
announcement and the caught report: no preview, no figure, no
statistics. -/
theorem processOne_of_error (fs : FS) (data_dir p : String) (e : String)
    (h : readParse fs data_dir p = Except.error e) :
    processOne fs data_dir p
      = [Ev.processing (basename p), Ev.parseError (basename p) e] := by
  cases hrf : readFile fs data_dir p with
  | error e2 =>
    simp only [readParse, hrf, Except.error.injEq] at h
    subst h
    simp [processOne, hrf]
  | ok ls =>
    simp only [readParse, hrf] at h
    cases hpl : parseLines ls with
    | error e2 =>
      rw [hpl] at h
      simp only [Except.error.injEq] at h
      subst h
      simp [processOne, hrf, hpl]
    | ok rows =>
      rw [hpl] at h
      exact absurd h (by simp)

/-- A file that reads and parses successfully into a nonempty record
contributes exactly: announcement, preview, shown figure, statistics. -/
theorem processOne_of_ok (fs : FS) (data_dir p : String) (rows : List Row)
    (h : readParse fs data_dir p = Except.ok rows) (hne : rows ≠ []) :
    ∃ j v, idxmaxPair ((sortRows rows).map Row.L_ubvri) = some (j, v) ∧
      processOne fs data_dir p
        = [Ev.processing (basename p),
           Ev.preview (basename p) ((sortRows rows).take 5),
           Ev.plotShown (basename p) ((sortRows rows).map Row.time)
             ((sortRows rows).map Row.L_ubvri),
           Ev.stats (basename p)
             (((sortRows rows).map Row.time).getD j 0)
             ((seriesMax ((sortRows rows).map Row.L_ubvri)).getD 0)
             ((seriesMin ((sortRows rows).map Row.time)).getD 0)
             ((seriesMax ((sortRows rows).map Row.time)).getD 0)] := by
  cases hrf : readFile fs data_dir p with
  | error e2 =>
    simp only [readParse, hrf] at h
    exact absurd h (by simp)
  | ok ls =>
    simp only [readParse, hrf] at h
    have hmapne : (sortRows rows).map Row.L_ubvri ≠ [] := by
      intro hc
      exact sortRows_ne_nil rows hne (List.map_eq_nil_iff.mp hc)
    cases hidx : idxmaxPair ((sortRows rows).map Row.L_ubvri) with
    | none => exact absurd ((idxmaxPair_eq_none_iff _).mp hidx) hmapne
    | some jv =>
      obtain ⟨j, v⟩ := jv
      refine ⟨j, v, rfl, ?_⟩
      simp [processOne, hrf, h, hidx]

/-- The `Processing file:` announcements of one file's pass: exactly
one, naming that file. -/
theorem processedBases_processOne (fs : FS) (data_dir p : String) :
    processedBases (processOne fs data_dir p) = [basename p] := by
  cases hrf : readFile fs data_dir p with
  | error e => simp [processOne, processedBases, hrf]
  | ok ls =>
    cases hpl : parseLines ls with
    | error e => simp [processOne, processedBases, hrf, hpl]
    | ok rows =>
      cases hidx : idxmaxPair ((sortRows rows).map Row.L_ubvri) with
      | none => simp [processOne, processedBases, hrf, hpl, hidx]
      | some jv => simp [processOne, processedBases, hrf, hpl, hidx]

/-- One file's pass never prints a selection diagnostic. -/
theorem processOne_no_diagnostic (fs : FS) (data_dir p : String) :
    (processOne fs data_dir p).any isDiagnostic = false := by
  cases hrf : readFile fs data_dir p with
  | error e => simp [processOne, isDiagnostic, hrf]
  | ok ls =>
    cases hpl : parseLines ls with
    | error e => simp [processOne, isDiagnostic, hrf, hpl]
    | ok rows =>
      cases hidx : idxmaxPair ((sortRows rows).map Row.L_ubvri) with
      | none => simp [processOne, isDiagnostic, hrf, hpl, hidx]
      | some jv => simp [processOne, isDiagnostic, hrf, hpl, hidx]

theorem processedBases_listing_aux (l : List (Nat × String)) :
    processedBases (l.map (fun ib => Ev.listItem (ib.1 + 1) (basename ib.2))) = [] := by
  induction l with
  | nil => rfl
  | cons x xs ih => simp [processedBases, List.filterMap_cons]

theorem processedBases_listing (ps : List String) :
    processedBases (listingEvents ps) = [] :=
  processedBases_listing_aux ps.enum

theorem listing_any_false_aux (P : Ev → Bool)
    (hP : ∀ n b, P (Ev.listItem n b) = false) (l : List (Nat × String)) :
    (l.map (fun ib => Ev.listItem (ib.1 + 1) (basename ib.2))).any P = false := by
  induction l with
  | nil => rfl
  | cons x xs ih => simp [List.any_cons, hP, ih]

theorem listing_no_diagnostic (ps : List String) :
    (listingEvents ps).any isDiagnostic = false :=
  listing_any_false_aux isDiagnostic (fun _ _ => rfl) ps.enum

/-- Line 41–43: an empty discovery result short-circuits the whole
call with the count and the `No files found` report, regardless of
`file_index` and `file_name`. -/
theorem plot_of_empty (fs : FS) (data_dir : String)
    (h : sortedFilePaths fs data_dir = []) (i : Option Int) (n : Option String) :
    plot_bolometric_curve fs data_dir i n
      = [Ev.foundCount 0 data_dir, Ev.noFiles data_dir] := by
  simp [plot_bolometric_curve, h]

/-- Lines 52–56: a supplied name whose joined path exists selects
exactly that path (when discovery found anything at all). -/
theorem plot_of_name_exists (fs : FS) (data_dir name : String) (i : Option Int)
    (hne : sortedFilePaths fs data_dir ≠ [])
    (hex : pathExists fs data_dir (joinPath data_dir name) = true) :
    plot_bolometric_curve fs data_dir i (some name)
      = Ev.foundCount (sortedFilePaths fs data_dir).length data_dir
          :: (listingEvents (sortedFilePaths fs data_dir)
              ++ processOne fs data_dir (joinPath data_dir name)) := by
  simp [plot_bolometric_curve, isEmpty_false_of_ne_nil hne, hex]

/-- Lines 57–59: a supplied name whose joined path does not exist
short-circuits with the `File ... not found` message. -/
theorem plot_of_name_missing (fs : FS) (data_dir name : String) (i : Option Int)
    (hne : sortedFilePaths fs data_dir ≠ [])
    (hex : pathExists fs data_dir (joinPath data_dir name) = false) :
    plot_bolometric_curve fs data_dir i (some name)
      = Ev.foundCount (sortedFilePaths fs data_dir).length data_dir
          :: (listingEvents (sortedFilePaths fs data_dir)
              ++ [Ev.nameNotFound name data_dir]) := by
  simp [plot_bolometric_curve, isEmpty_false_of_ne_nil hne, hex]

/-- Lines 60–63: with no name and a valid index, exactly the file at
that index of the sorted list is selected. -/
theorem plot_of_index_valid (fs : FS) (data_dir : String) (i : Int)
    (h0 : 0 ≤ i) (hlt : i < ((sortedFilePaths fs data_dir).length : Int)) :
    plot_bolometric_curve fs data_dir (some i) none
      = Ev.foundCount (sortedFilePaths fs data_dir).length data_dir
          :: (listingEvents (sortedFilePaths fs data_dir)
              ++ processOne fs data_dir ((sortedFilePaths fs data_dir).getD i.toNat "")) := by
  have hne : sortedFilePaths fs data_dir ≠ [] := by
    intro hc
    rw [hc] at hlt
    simp at hlt
    omega
  simp [plot_bolometric_curve, isEmpty_false_of_ne_nil hne, h0, hlt]

/-- Lines 64–66: with no name and an out-of-range index, the call
short-circuits with the `Invalid file index` message naming the bound
`len(file_paths) - 1`. -/
theorem plot_of_index_invalid (fs : FS) (data_dir : String) (i : Int)
    (hne : sortedFilePaths fs data_dir ≠ [])
    (hinv : ¬(0 ≤ i ∧ i < ((sortedFilePaths fs data_dir).length : Int))) :
    plot_bolometric_curve fs data_dir (some i) none
      = Ev.foundCount (sortedFilePaths fs data_dir).length data_dir
          :: (listingEvents (sortedFilePaths fs data_dir)
              ++ [Ev.badIndex i (((sortedFilePaths fs data_dir).length : Int) - 1)]) := by
  simp [plot_bolometric_curve, isEmpty_false_of_ne_nil hne, hinv]

/-- Lines 67–69 and 72: with neither name nor index, every discovered
file is processed in sorted order, each contributing its own pass. -/
theorem plot_of_all (fs : FS) (data_dir : String)
    (hne : sortedFilePaths fs data_dir ≠ []) :
    plot_bolometric_curve fs data_dir none none
      = Ev.foundCount (sortedFilePaths fs data_dir).length data_dir
          :: (listingEvents (sortedFilePaths fs data_dir)
              ++ (sortedFilePaths fs data_dir).flatMap (processOne fs data_dir)) := by
  simp [plot_bolometric_curve, isEmpty_false_of_ne_nil hne]

theorem processedBases_flatMap (fs : FS) (data_dir : String) (ps : List String) :
    processedBases (ps.flatMap (processOne fs data_dir)) = ps.map basename := by
  induction ps with
  | nil => rfl
  | cons p ps ih =>
    rw [List.flatMap_cons, List.map_cons]
    rw [processedBases, List.filterMap_append]
    rw [← processedBases, ← processedBases, processedBases_processOne, ih]
    rfl

theorem processedBases_append (l1 l2 : List Ev) :
    processedBases (l1 ++ l2) = processedBases l1 ++ processedBases l2 := by
  simp [processedBases, List.filterMap_append]

theorem processedBases_cons_found (n : Nat) (d : String) (tr : List Ev) :
    processedBases (Ev.foundCount n d :: tr) = processedBases tr := by
  simp [processedBases, List.filterMap_cons]

/-- The `Processing file:` announcements after the discovery header. -/
theorem processedBases_header (n : Nat) (d : String) (ps : List String) (tr : List Ev) :
    processedBases (Ev.foundCount n d :: (listingEvents ps ++ tr))
      = processedBases tr := by
  rw [processedBases_cons_found, processedBases_append, processedBases_listing]
  rfl

theorem processOne_no_badIndex (fs : FS) (data_dir p : String) :
    hasBadIndexMsg (processOne fs data_dir p) = false := by
  cases hrf : readFile fs data_dir p with
  | error e => simp [processOne, hasBadIndexMsg, hrf]
  | ok ls =>
    cases hpl : parseLines ls with
    | error e => simp [processOne, hasBadIndexMsg, hrf, hpl]
    | ok rows =>
      cases hidx : idxmaxPair ((sortRows rows).map Row.L_ubvri) with
      | none => simp [processOne, hasBadIndexMsg, hrf, hpl, hidx]
      | some jv => simp [processOne, hasBadIndexMsg, hrf, hpl, hidx]

theorem processOne_no_nameNotFound (fs : FS) (data_dir p : String) :
    hasNameNotFoundMsg (processOne fs data_dir p) = false := by
  cases hrf : readFile fs data_dir p with
  | error e => simp [processOne, hasNameNotFoundMsg, hrf]
  | ok ls =>
    cases hpl : parseLines ls with
    | error e => simp [processOne, hasNameNotFoundMsg, hrf, hpl]
    | ok rows =>
      cases hidx : idxmaxPair ((sortRows rows).map Row.L_ubvri) with
      | none => simp [processOne, hasNameNotFoundMsg, hrf, hpl, hidx]
      | some jv => simp [processOne, hasNameNotFoundMsg, hrf, hpl, hidx]

theorem hasBadIndexMsg_header (n : Nat) (d : String) (ps : List String) (tr : List Ev) :
    hasBadIndexMsg (Ev.foundCount n d :: (listingEvents ps ++ tr))
      = hasBadIndexMsg tr := by
  rw [hasBadIndexMsg, List.any_cons, List.any_append]
  rw [show (listingEvents ps).any _ = false from
    listing_any_false_aux _ (fun _ _ => rfl) ps.enum]
  rfl

theorem hasNameNotFoundMsg_header (n : Nat) (d : String) (ps : List String) (tr : List Ev) :
    hasNameNotFoundMsg (Ev.foundCount n d :: (listingEvents ps ++ tr))
      = hasNameNotFoundMsg tr := by
  rw [hasNameNotFoundMsg, List.any_cons, List.any_append]
  rw [show (listingEvents ps).any _ = false from
    listing_any_false_aux _ (fun _ _ => rfl) ps.enum]
  rfl

theorem get_map_row (f : Row → ℚ) (l : List Row) (k : Nat)
    (hk : k < l.length) (hk2 : k < (l.map f).length) :
    (l.map f).get ⟨k, hk2⟩ = f (l.get ⟨k, hk⟩) := by
  simp

/-! The claims. -/

/-- Claim C1: for every successfully parsed file, the derived linear
luminosity is `10^(L_ubvri)` pointwise over the time-sorted rows, and
the reported peak time is the `time` value of the row with the maximum
`L_ubvri`, ties resolved by first occurrence in the time-sorted row
order. -/
theorem C1_linear_roundtrip_and_peak (fs : FS) (data_dir p : String)
    (rows : List Row)
    (h : readParse fs data_dir p = Except.ok rows) (hne : rows ≠ []) :
    linear_lbol ((sortRows rows).map Row.L_ubvri)
      = (sortRows rows).map (fun r => pow10 r.L_ubvri) ∧
    ∃ (j : Nat) (hj : j < (sortRows rows).length) (pl t0 t1 : ℚ),
      (∀ k (hk : k < (sortRows rows).length),
          ((sortRows rows).get ⟨k, hk⟩).L_ubvri
            ≤ ((sortRows rows).get ⟨j, hj⟩).L_ubvri) ∧
      (∀ k (hk : k < (sortRows rows).length), k < j →
          ((sortRows rows).get ⟨k, hk⟩).L_ubvri
            < ((sortRows rows).get ⟨j, hj⟩).L_ubvri) ∧
      reportedStats (processOne fs data_dir p)
        = [(basename p, ((sortRows rows).get ⟨j, hj⟩).time, pl, t0, t1)] := by
  constructor
  · rw [linear_lbol, List.map_map]
    rfl
  · obtain ⟨j, v, hidx, hshape⟩ := processOne_of_ok fs data_dir p rows h hne
    obtain ⟨hj, hget, hall, hfirst⟩ := idxmaxPair_spec _ j v hidx
    have hjlen : j < (sortRows rows).length := by simpa using hj
    refine ⟨j, hjlen, (seriesMax ((sortRows rows).map Row.L_ubvri)).getD 0,
      (seriesMin ((sortRows rows).map Row.time)).getD 0,
      (seriesMax ((sortRows rows).map Row.time)).getD 0, ?_, ?_, ?_⟩
    · intro k hk
      have hk2 : k < ((sortRows rows).map Row.L_ubvri).length := by simpa using hk
      have h1 := hall k hk2
      rw [get_map_row Row.L_ubvri _ k hk hk2] at h1
      rw [get_map_row Row.L_ubvri _ j hjlen hj] at hget
      rw [hget]
      exact h1
    · intro k hk hkj
      have hk2 : k < ((sortRows rows).map Row.L_ubvri).length := by simpa using hk
      have h1 := hfirst k hk2 hkj
      rw [get_map_row Row.L_ubvri _ k hk hk2] at h1
      rw [get_map_row Row.L_ubvri _ j hjlen hj] at hget
      rw [hget]
      exact h1
    · rw [hshape]
      have hjt : j < ((sortRows rows).map Row.time).length := by simpa using hjlen
      rw [reportedStats]
      simp only [List.filterMap_cons, List.filterMap_nil]
      rw [List.getD_eq_getElem _ _ hjt]
      rw [show ((sortRows rows).map Row.time)[j] = ((sortRows rows).map Row.time).get ⟨j, hjt⟩ from rfl]
      rw [get_map_row Row.time _ j hjlen hjt]

/-- Claim C1, witness: the spec's §8 scenario file `a.lbol`. -/
theorem C1_witness :
    linear_lbol ((sortRows rowsA).map Row.L_ubvri)
      = (sortRows rowsA).map (fun r => pow10 r.L_ubvri) ∧
    ∃ (j : Nat) (hj : j < (sortRows rowsA).length) (pl t0 t1 : ℚ),
      (∀ k (hk : k < (sortRows rowsA).length),
          ((sortRows rowsA).get ⟨k, hk⟩).L_ubvri
            ≤ ((sortRows rowsA).get ⟨j, hj⟩).L_ubvri) ∧
      (∀ k (hk : k < (sortRows rowsA).length), k < j →
          ((sortRows rowsA).get ⟨k, hk⟩).L_ubvri
            < ((sortRows rowsA).get ⟨j, hj⟩).L_ubvri) ∧
      reportedStats (processOne fsA "d" (joinPath "d" "a.lbol"))
        = [(basename (joinPath "d" "a.lbol"),
            ((sortRows rowsA).get ⟨j, hj⟩).time, pl, t0, t1)] :=
  C1_linear_roundtrip_and_peak fsA "d" (joinPath "d" "a.lbol") rowsA rfl (by decide)

/-- Claim C2: per-file failures are isolated.  In the all-files mode
the batch trace is exactly the discovery header followed by each
discovered file's own pass, in order; a file whose read/parse raises
contributes only its announcement and the caught error report (no
figure), and every file that parses into a nonempty record contributes
its full announcement–preview–figure–statistics pass.  The batch is a
total function of the state — it never aborts on a per-file failure. -/
theorem C2_per_file_isolation (fs : FS) (data_dir : String)
    (hne : sortedFilePaths fs data_dir ≠ []) :
    plot_bolometric_curve fs data_dir none none
      = Ev.foundCount (sortedFilePaths fs data_dir).length data_dir
          :: (listingEvents (sortedFilePaths fs data_dir)
              ++ (sortedFilePaths fs data_dir).flatMap (processOne fs data_dir)) ∧
    ∀ p ∈ sortedFilePaths fs data_dir,
      (∀ e, readParse fs data_dir p = Except.error e →
          processOne fs data_dir p
            = [Ev.processing (basename p), Ev.parseError (basename p) e]) ∧
      (∀ rows, readParse fs data_dir p = Except.ok rows → rows ≠ [] →
          ∃ pt pl t0 t1,
            processOne fs data_dir p
              = [Ev.processing (basename p),
                 Ev.preview (basename p) ((sortRows rows).take 5),
                 Ev.plotShown (basename p) ((sortRows rows).map Row.time)
                   ((sortRows rows).map Row.L_ubvri),
                 Ev.stats (basename p) pt pl t0 t1]) := by
  refine ⟨plot_of_all fs data_dir hne, ?_⟩
  intro p _
  refine ⟨?_, ?_⟩
  · intro e he
    exact processOne_of_error fs data_dir p e he
  · intro rows hr hrne
    obtain ⟨j, v, hidx, hshape⟩ := processOne_of_ok fs data_dir p rows hr hrne
    exact ⟨_, _, _, _, hshape⟩

/-- Claim C2, witness: the three-file directory where `b.dat` (second
in sorted order) has a three-token row — `a.txt` and `c.csv` are still
plotted and reported, `b.dat` gets a reported error and no plot. -/
theorem C2_witness :
    (plot_bolometric_curve fs3 "d" none none
      = Ev.foundCount (sortedFilePaths fs3 "d").length "d"
          :: (listingEvents (sortedFilePaths fs3 "d")
              ++ (sortedFilePaths fs3 "d").flatMap (processOne fs3 "d")) ∧
     ∀ p ∈ sortedFilePaths fs3 "d",
      (∀ e, readParse fs3 "d" p = Except.error e →
          processOne fs3 "d" p
            = [Ev.processing (basename p), Ev.parseError (basename p) e]) ∧
      (∀ rows, readParse fs3 "d" p = Except.ok rows → rows ≠ [] →
          ∃ pt pl t0 t1,
            processOne fs3 "d" p
              = [Ev.processing (basename p),
                 Ev.preview (basename p) ((sortRows rows).take 5),
                 Ev.plotShown (basename p) ((sortRows rows).map Row.time)
                   ((sortRows rows).map Row.L_ubvri),
                 Ev.stats (basename p) pt pl t0 t1])) ∧
    hasPlotFor "b.dat" (plot_bolometric_curve fs3 "d" none none) = false ∧
    hasPlotFor "a.txt" (plot_bolometric_curve fs3 "d" none none) = true ∧
    hasPlotFor "c.csv" (plot_bolometric_curve fs3 "d" none none) = true ∧
    processedBases (plot_bolometric_curve fs3 "d" none none)
      = ["a.txt", "b.dat", "c.csv"] :=
  ⟨C2_per_file_isolation fs3 "d" (by decide), by decide, by decide, by decide, by decide⟩

/-- Claim C3: selection precedence — a supplied name alone determines
the selection (the index is never consulted); with no name, a valid
index selects exactly the file at that index; with neither, every
discovered file is processed. -/
theorem C3_selection_precedence (fs : FS) (data_dir : String) :
    (∀ (name : String) (i1 i2 : Option Int),
        plot_bolometric_curve fs data_dir i1 (some name)
          = plot_bolometric_curve fs data_dir i2 (some name)) ∧
    (∀ i : Int, 0 ≤ i → i < ((sortedFilePaths fs data_dir).length : Int) →
        processedBases (plot_bolometric_curve fs data_dir (some i) none)
          = [basename ((sortedFilePaths fs data_dir).getD i.toNat "")]) ∧
    processedBases (plot_bolometric_curve fs data_dir none none)
      = (sortedFilePaths fs data_dir).map basename := by
  refine ⟨fun name i1 i2 => rfl, ?_, ?_⟩
  · intro i h0 hlt
    rw [plot_of_index_valid fs data_dir i h0 hlt, processedBases_header]
    exact processedBases_processOne fs data_dir _
  · by_cases hps : sortedFilePaths fs data_dir = []
    · rw [plot_of_empty fs data_dir hps none none, hps]
      rfl
    · rw [plot_of_all fs data_dir hps, processedBases_header]
      exact processedBases_flatMap fs data_dir _

/-- Claim C3, witness: the three-file directory. -/
theorem C3_witness :
    (∀ (name : String) (i1 i2 : Option Int),
        plot_bolometric_curve fs3 "d" i1 (some name)
          = plot_bolometric_curve fs3 "d" i2 (some name)) ∧
    (∀ i : Int, 0 ≤ i → i < ((sortedFilePaths fs3 "d").length : Int) →
        processedBases (plot_bolometric_curve fs3 "d" (some i) none)
          = [basename ((sortedFilePaths fs3 "d").getD i.toNat "")]) ∧
    processedBases (plot_bolometric_curve fs3 "d" none none)
      = (sortedFilePaths fs3 "d").map basename :=
  C3_selection_precedence fs3 "d"

/-- Claim C4: a valid index (name absent) selects exactly the file at
that index of the FileSet, which is the lexicographically sorted
concatenation of the four glob pattern results. -/
theorem C4_valid_index_selects_fileset_entry (fs : FS) (data_dir : String) (i : Int)
    (h0 : 0 ≤ i) (hlt : i < ((sortedFilePaths fs data_dir).length : Int)) :
    plot_bolometric_curve fs data_dir (some i) none
      = Ev.foundCount (sortedFilePaths fs data_dir).length data_dir
          :: (listingEvents (sortedFilePaths fs data_dir)
              ++ processOne fs data_dir ((sortedFilePaths fs data_dir).getD i.toNat "")) ∧
    processedBases (plot_bolometric_curve fs data_dir (some i) none)
      = [basename ((sortedFilePaths fs data_dir).getD i.toNat "")] ∧
    sortedFilePaths fs data_dir
      = sortLe strLe ((file_patterns.map (glob fs data_dir)).flatten) := by
  refine ⟨plot_of_index_valid fs data_dir i h0 hlt, ?_, rfl⟩
  rw [plot_of_index_valid fs data_dir i h0 hlt, processedBases_header]
  exact processedBases_processOne fs data_dir _

/-- Claim C4, witness: index 1 of the three-file directory selects
`d/b.dat`, the middle entry of the sorted FileSet. -/
theorem C4_witness :
    (plot_bolometric_curve fs3 "d" (some 1) none
      = Ev.foundCount (sortedFilePaths fs3 "d").length "d"
          :: (listingEvents (sortedFilePaths fs3 "d")
              ++ processOne fs3 "d" ((sortedFilePaths fs3 "d").getD (1 : Int).toNat "")) ∧
     processedBases (plot_bolometric_curve fs3 "d" (some 1) none)
      = [basename ((sortedFilePaths fs3 "d").getD (1 : Int).toNat "")] ∧
     sortedFilePaths fs3 "d"
      = sortLe strLe ((file_patterns.map (glob fs3 "d")).flatten)) ∧
    (sortedFilePaths fs3 "d").getD (1 : Int).toNat "" = "d/b.dat" :=
  ⟨C4_valid_index_selects_fileset_entry fs3 "d" 1 (by decide) (by decide), by decide⟩

/-- Claim C5, counterexample: with an empty FileSet every index is out
of range, yet the call's only diagnostic is the zero-files report —
no message naming the valid bound is ever produced, contradicting the
claim's "for an out-of-range index, the message names the valid
bound". -/
theorem C5_counterexample :
    ¬ (0 ≤ (0 : Int) ∧ (0 : Int) < ((sortedFilePaths fsOnlyJson "d").length : Int)) ∧
    hasBadIndexMsg (plot_bolometric_curve fsOnlyJson "d" (some 0) none) = false ∧
    plot_bolometric_curve fsOnlyJson "d" (some 0) none
      = [Ev.foundCount 0 "d", Ev.noFiles "d"] := by decide

/-- Claim C5 (amended): invalid selection short-circuits — a missing
name or an out-of-range index processes no file, produces a diagnostic
message, and returns normally; when the FileSet is nonempty, an
out-of-range index's message names the valid bound `len - 1` (with an
empty FileSet the call already returned at the zero-files report). -/
theorem C5_invalid_selection_short_circuits (fs : FS) (data_dir : String) :
    (∀ (name : String) (i : Option Int),
        pathExists fs data_dir (joinPath data_dir name) = false →
        processedBases (plot_bolometric_curve fs data_dir i (some name)) = [] ∧
        (plot_bolometric_curve fs data_dir i (some name)).any isDiagnostic = true) ∧
    (∀ i : Int, ¬ (0 ≤ i ∧ i < ((sortedFilePaths fs data_dir).length : Int)) →
        processedBases (plot_bolometric_curve fs data_dir (some i) none) = [] ∧
        (plot_bolometric_curve fs data_dir (some i) none).any isDiagnostic = true ∧
        (sortedFilePaths fs data_dir ≠ [] →
          Ev.badIndex i (((sortedFilePaths fs data_dir).length : Int) - 1)
            ∈ plot_bolometric_curve fs data_dir (some i) none)) := by
  constructor
  · intro name i hex
    by_cases hps : sortedFilePaths fs data_dir = []
    · rw [plot_of_empty fs data_dir hps]
      exact ⟨rfl, rfl⟩
    · rw [plot_of_name_missing fs data_dir name i hps hex]
      refine ⟨?_, ?_⟩
      · rw [processedBases_header]
        rfl
      · simp [List.any_cons, List.any_append, isDiagnostic]
  · intro i hinv
    by_cases hps : sortedFilePaths fs data_dir = []
    · rw [plot_of_empty fs data_dir hps]
      exact ⟨rfl, rfl, fun hc => absurd hps hc⟩
    · rw [plot_of_index_invalid fs data_dir i hps hinv]
      refine ⟨?_, ?_, ?_⟩
      · rw [processedBases_header]
        rfl
      · simp [List.any_cons, List.any_append, isDiagnostic]
      · intro _
        simp [List.mem_cons, List.mem_append]

/-- Claim C5, witness: index 7 against the three-file directory —
nothing processed, a diagnostic appears and it names the bound 2. -/
theorem C5_witness :
    processedBases (plot_bolometric_curve fs3 "d" (some 7) none) = [] ∧
    (plot_bolometric_curve fs3 "d" (some 7) none).any isDiagnostic = true ∧
    Ev.badIndex 7 2 ∈ plot_bolometric_curve fs3 "d" (some 7) none := by
  obtain ⟨-, hidx⟩ := C5_invalid_selection_short_circuits fs3 "d"
  obtain ⟨h1, h2, h3⟩ := hidx 7 (by decide)
  refine ⟨h1, h2, ?_⟩
  have hb : ((sortedFilePaths fs3 "d").length : Int) - 1 = 2 := by decide
  have := h3 (by decide)
  rw [hb] at this
  exact this

/-- Claim C6: a directory whose discovery yields an empty FileSet is
reported and the call returns normally — the whole trace is the count
and the empty report; nothing is parsed, no figure is shown, no
statistics are printed. -/
theorem C6_empty_fileset_reports_and_returns (fs : FS) (data_dir : String)
    (h : sortedFilePaths fs data_dir = []) (i : Option Int) (n : Option String) :
    plot_bolometric_curve fs data_dir i n
      = [Ev.foundCount 0 data_dir, Ev.noFiles data_dir] ∧
    processedBases (plot_bolometric_curve fs data_dir i n) = [] ∧
    reportedStats (plot_bolometric_curve fs data_dir i n) = [] ∧
    (∀ b, hasPlotFor b (plot_bolometric_curve fs data_dir i n) = false) := by
  have hp := plot_of_empty fs data_dir h i n
  refine ⟨hp, ?_, ?_, ?_⟩
  · rw [hp]
    rfl
  · rw [hp]
    rfl
  · intro b
    rw [hp]
    rfl

/-- Claim C6, witness: a directory holding only `a.json`. -/
theorem C6_witness :
    plot_bolometric_curve fsOnlyJson "d" none none
      = [Ev.foundCount 0 "d", Ev.noFiles "d"] ∧
    processedBases (plot_bolometric_curve fsOnlyJson "d" none none) = [] ∧
    reportedStats (plot_bolometric_curve fsOnlyJson "d" none none) = [] ∧
    (∀ b, hasPlotFor b (plot_bolometric_curve fsOnlyJson "d" none none) = false) :=
  C6_empty_fileset_reports_and_returns fsOnlyJson "d" (by decide) none none

/-- Claim C7: determinism — two calls with identical arguments and
identical directory state report identical statistics (peak time, peak
value, time range). -/
theorem C7_identical_runs_identical_stats (fs1 fs2 : FS) (d1 d2 : String)
    (i1 i2 : Option Int) (n1 n2 : Option String)
    (h : fs1 = fs2 ∧ d1 = d2 ∧ i1 = i2 ∧ n1 = n2) :
    reportedStats (plot_bolometric_curve fs1 d1 i1 n1)
      = reportedStats (plot_bolometric_curve fs2 d2 i2 n2) := by
  obtain ⟨h1, h2, h3, h4⟩ := h
  subst h1
  subst h2
  subst h3
  subst h4
  rfl

/-- Claim C7, witness: two identical runs on the §8 scenario, whose
common reported statistics are peak time 1, peak value 2, range 0–1. -/
theorem C7_witness :
    reportedStats (plot_bolometric_curve fsA "d" none none)
      = reportedStats (plot_bolometric_curve fsA "d" none none) ∧
    reportedStats (plot_bolometric_curve fsA "d" none none)
      = [("a.lbol", 1, 2, 0, 1)] :=
  ⟨C7_identical_runs_identical_stats fsA fsA "d" "d" none none none none
      ⟨rfl, rfl, rfl, rfl⟩, by decide⟩

/-- Claim C8: the empty-FileSet early return precedes name resolution —
when the four globs match nothing, the call returns at the zero-files
report no matter what `file_name` says, the trace equals the no-name
trace (the name is never existence-checked), and no `File ... not
found` message appears. -/
theorem C8_empty_return_precedes_name (fs : FS) (data_dir : String)
    (h : sortedFilePaths fs data_dir = []) (i : Option Int) (name : String) :
    plot_bolometric_curve fs data_dir i (some name)
      = [Ev.foundCount 0 data_dir, Ev.noFiles data_dir] ∧
    plot_bolometric_curve fs data_dir i (some name)
      = plot_bolometric_curve fs data_dir i none ∧
    hasNameNotFoundMsg (plot_bolometric_curve fs data_dir i (some name)) = false ∧
    processedBases (plot_bolometric_curve fs data_dir i (some name)) = [] := by
  have hp := plot_of_empty fs data_dir h i (some name)
  refine ⟨hp, ?_, ?_, ?_⟩
  · rw [hp, plot_of_empty fs data_dir h i none]
  · rw [hp]
    rfl
  · rw [hp]
    rfl

/-- Claim C8, witness: `a.json` exists in the directory and is named,
yet the call returns at the empty report without checking it. -/
theorem C8_witness :
    pathExists fsOnlyJson "d" (joinPath "d" "a.json") = true ∧
    (plot_bolometric_curve fsOnlyJson "d" none (some "a.json")
        = [Ev.foundCount 0 "d", Ev.noFiles "d"] ∧
     plot_bolometric_curve fsOnlyJson "d" none (some "a.json")
        = plot_bolometric_curve fsOnlyJson "d" none none ∧
     hasNameNotFoundMsg
        (plot_bolometric_curve fsOnlyJson "d" none (some "a.json")) = false ∧
     processedBases
        (plot_bolometric_curve fsOnlyJson "d" none (some "a.json")) = []) :=
  ⟨by decide, C8_empty_return_precedes_name fsOnlyJson "d" (by decide) none "a.json"⟩

/-- Claim C9, counterexample: `a.json` exists at its joined path and
`file_index = 5` is out of range, yet the named file is not processed
(the FileSet is empty, so the call returns before name resolution) —
refuting "the named file is processed normally". -/
theorem C9_counterexample :
    pathExists fsOnlyJson "d" (joinPath "d" "a.json") = true ∧
    hasBadIndexMsg
      (plot_bolometric_curve fsOnlyJson "d" (some 5) (some "a.json")) = false ∧
    processedBases
      (plot_bolometric_curve fsOnlyJson "d" (some 5) (some "a.json")) = [] := by
  decide

/-- Claim C9 (amended): when `file_name` is given, its joined path
exists and the FileSet is nonempty, `file_index` is never validated —
any index yields the identical trace, no index diagnostic is produced,
and the named file is processed normally.  (With an empty FileSet the
call returns at the zero-files report and the named file is not
processed; the index is still unvalidated.) -/
theorem C9_index_unvalidated_with_name (fs : FS) (data_dir name : String)
    (hex : pathExists fs data_dir (joinPath data_dir name) = true)
    (hne : sortedFilePaths fs data_dir ≠ []) :
    (∀ i1 i2 : Option Int,
        plot_bolometric_curve fs data_dir i1 (some name)
          = plot_bolometric_curve fs data_dir i2 (some name)) ∧
    (∀ i : Option Int,
        hasBadIndexMsg (plot_bolometric_curve fs data_dir i (some name)) = false) ∧
    (∀ i : Option Int,
        processedBases (plot_bolometric_curve fs data_dir i (some name))
          = [basename (joinPath data_dir name)]) := by
  refine ⟨fun i1 i2 => rfl, ?_, ?_⟩
  · intro i
    rw [plot_of_name_exists fs data_dir name i hne hex, hasBadIndexMsg_header]
    exact processOne_no_badIndex fs data_dir _
  · intro i
    rw [plot_of_name_exists fs data_dir name i hne hex, processedBases_header]
    exact processedBases_processOne fs data_dir _

/-- Claim C9, witness: `notes.json` exists (non-matching extension) in
a directory with a nonempty FileSet; with the wildly out-of-range index
`-3` it is still processed, with no index diagnostic. -/
theorem C9_witness :
    ((∀ i1 i2 : Option Int,
        plot_bolometric_curve fsD "d" i1 (some "notes.json")
          = plot_bolometric_curve fsD "d" i2 (some "notes.json")) ∧
     (∀ i : Option Int,
        hasBadIndexMsg (plot_bolometric_curve fsD "d" i (some "notes.json")) = false) ∧
     (∀ i : Option Int,
        processedBases (plot_bolometric_curve fsD "d" i (some "notes.json"))
          = [basename (joinPath "d" "notes.json")])) ∧
    processedBases
      (plot_bolometric_curve fsD "d" (some (-3)) (some "notes.json"))
      = ["notes.json"] :=
  ⟨C9_index_unvalidated_with_name fsD "d" "notes.json" (by decide) (by decide),
   by decide⟩

/-- Claim C10: the name check tests only path existence — any existing
entry (directory, file of any extension, nested relative path) is
accepted by selection and handed to the per-file pass; a read failure
there surfaces as the caught, per-file reported error, never as the
selection's `File ... not found` diagnostic. -/
theorem C10_name_check_is_existence_only (fs : FS) (data_dir name : String)
    (i : Option Int)
    (hex : pathExists fs data_dir (joinPath data_dir name) = true)
    (hne : sortedFilePaths fs data_dir ≠ []) :
    plot_bolometric_curve fs data_dir i (some name)
      = Ev.foundCount (sortedFilePaths fs data_dir).length data_dir
          :: (listingEvents (sortedFilePaths fs data_dir)
              ++ processOne fs data_dir (joinPath data_dir name)) ∧
    hasNameNotFoundMsg (plot_bolometric_curve fs data_dir i (some name)) = false ∧
    (∀ e, readFile fs data_dir (joinPath data_dir name) = Except.error e →
        processOne fs data_dir (joinPath data_dir name)
          = [Ev.processing (basename (joinPath data_dir name)),
             Ev.parseError (basename (joinPath data_dir name)) e]) := by
  refine ⟨plot_of_name_exists fs data_dir name i hne hex, ?_, ?_⟩
  · rw [plot_of_name_exists fs data_dir name i hne hex, hasNameNotFoundMsg_header]
    exact processOne_no_nameNotFound fs data_dir _
  · intro e he
    apply processOne_of_error
    rw [readParse, he]

/-- Claim C10, witness: the subdirectory `sub` exists, is accepted by
selection, and its read failure is reported per-file. -/
theorem C10_witness :
    (plot_bolometric_curve fsD "d" none (some "sub")
      = Ev.foundCount (sortedFilePaths fsD "d").length "d"
          :: (listingEvents (sortedFilePaths fsD "d")
              ++ processOne fsD "d" (joinPath "d" "sub")) ∧
     hasNameNotFoundMsg (plot_bolometric_curve fsD "d" none (some "sub")) = false ∧
     (∀ e, readFile fsD "d" (joinPath "d" "sub") = Except.error e →
        processOne fsD "d" (joinPath "d" "sub")
          = [Ev.processing (basename (joinPath "d" "sub")),
             Ev.parseError (basename (joinPath "d" "sub")) e])) ∧
    readFile fsD "d" (joinPath "d" "sub") = Except.error "Is a directory" ∧
    Ev.parseError "sub" "Is a directory"
      ∈ plot_bolometric_curve fsD "d" none (some "sub") :=
  ⟨C10_name_check_is_existence_only fsD "d" "sub" none (by decide) (by decide),
   rfl, by decide⟩

end ShortPlateau
